import Mathlib

/-
Verification development for the cloud-etl-pipeline repository.

Shallow embedding of:
  src/src/pipeline.py            (PipelineStats, process_file, run)
  src/src/transform/transform_data.py (normalize_columns, handle_missing_values,
                                  remove_duplicates, convert_dtypes, transform)
  src/src/extract/extract_data.py (extract_csv and its on_bad_lines handling)
  src/config.py                  (EXTRACT_ON_BAD_LINES)

Modelling conventions:
  - Python exceptions become an explicit error type PyExn; fallible code
    returns Except or a PipelineStats-with-Option pair.
  - The mutable PipelineStats object is threaded explicitly.
  - Effectful stage calls inside process_file are abstracted by a per-attempt
    oracle AttemptEnv giving each stage outcome (the row counts and errors the
    stages produce on that attempt); this models transient I/O conditions that
    make a retry differ from the failed attempt.
  - Python strings are modelled as lists of code points (PyStr := List Nat),
    with the str methods restricted to their ASCII behaviour.
  - pandas DataFrames are modelled as a columnar structure with a dtype tag
    per column; numeric values are modelled as rationals, and the numeric
    parser models the integer fragment of pandas to_numeric.
-/

namespace ETL

/-- Model of the Python exception classes the pipeline distinguishes:
the three stage error classes defined by the repository, plus a catch-all
for any other Exception subclass. -/
inductive PyExn where
  | extractionError (m : String)
  | transformError (m : String)
  | loadError (m : String)
  | otherExn (m : String)
deriving DecidableEq

def PyExn.msg : PyExn → String
  | PyExn.extractionError m => m
  | PyExn.transformError m => m
  | PyExn.loadError m => m
  | PyExn.otherExn m => m

/-- Mirrors the handler tuple in pipeline.py line 111:
except (ExtractionError, TransformError, LoadError). -/
def isRetryable : PyExn → Bool
  | PyExn.extractionError _ => true
  | PyExn.transformError _ => true
  | PyExn.loadError _ => true
  | PyExn.otherExn _ => false

/-- pipeline.py class PipelineStats (lines 35-43). -/
structure PipelineStats where
  files_processed : Nat
  files_failed : Nat
  rows_extracted : Nat
  rows_transformed : Nat
  rows_loaded : Nat
  errors : List String
deriving DecidableEq

/-- PipelineStats.__init__: all counters zero, empty error list. -/
def initStats : PipelineStats := ⟨0, 0, 0, 0, 0, []⟩

/-- Outcome oracle for one attempt of the per-file try block in process_file:
what each stage call would do on this attempt.  extract and transform carry
the resulting row count on success; load carries the loaded row count. -/
structure AttemptEnv where
  extract : Except PyExn Nat
  transform : Except PyExn Nat
  save : Except PyExn Unit
  postgres_host : Bool
  load : Except PyExn Nat

/-- One execution of the try block body of process_file (pipeline.py lines
83-109), threading the mutable stats: extract, count rows, transform, count
rows, save the processed file, then optionally load to the database where a
LoadError is caught and logged (inner try at lines 96-103).  Returns the
updated stats and the exception escaping the body, if any. -/
def runAttempt (a : AttemptEnv) (s : PipelineStats) : PipelineStats × Option PyExn :=
  match a.extract with
  | Except.error e => (s, some e)
  | Except.ok nExtracted =>
    let s1 := { s with rows_extracted := s.rows_extracted + nExtracted }
    match a.transform with
    | Except.error e => (s1, some e)
    | Except.ok nTransformed =>
      let s2 := { s1 with rows_transformed := s1.rows_transformed + nTransformed }
      match a.save with
      | Except.error e => (s2, some e)
      | Except.ok _ =>
        if a.postgres_host then
          match a.load with
          | Except.ok nLoaded => ({ s2 with rows_loaded := s2.rows_loaded + nLoaded }, none)
          | Except.error (PyExn.loadError _) => (s2, none)
          | Except.error e => (s2, some e)
        else (s2, none)

/-- The exception escaping one attempt body, independent of the stats. -/
def attemptErr (a : AttemptEnv) : Option PyExn :=
  match a.extract with
  | Except.error e => some e
  | Except.ok _ =>
    match a.transform with
    | Except.error e => some e
    | Except.ok _ =>
      match a.save with
      | Except.error e => some e
      | Except.ok _ =>
        if a.postgres_host then
          match a.load with
          | Except.ok _ => none
          | Except.error (PyExn.loadError _) => none
          | Except.error e => some e
        else none

/-- The retry loop of process_file (pipeline.py lines 78-129), by structural
recursion on remaining fuel; the loop runs attempt = 1 .. max_retries, and
the invariant fuel + attempt = max_retries + 1 holds at every call from
process_file.  Returns (returned bool, final stats, number of the attempt on
which the loop returned; fuel exhaustion models falling off the loop). -/
def processFileAux (env : Nat → AttemptEnv) (fname : String) (maxRetries : Nat) :
    Nat → Nat → PipelineStats → Bool × PipelineStats × Nat
  | 0, attempt, s => (false, s, attempt - 1)
  | fuel + 1, attempt, s =>
    match runAttempt (env attempt) s with
    | (s1, none) => (true, { s1 with files_processed := s1.files_processed + 1 }, attempt)
    | (s1, some e) =>
      if isRetryable e then
        if attempt < maxRetries then
          processFileAux env fname maxRetries fuel (attempt + 1) s1
        else
          (false, { s1 with
                    files_failed := s1.files_failed + 1
                    errors := s1.errors ++ [fname ++ ": " ++ PyExn.msg e] }, attempt)
      else
        (false, { s1 with
                  files_failed := s1.files_failed + 1
                  errors := s1.errors ++ [fname ++ ": Unexpected error: " ++ PyExn.msg e] }, attempt)

/-- pipeline.py process_file(csv_file, stats, max_retries=3). -/
def process_file (env : Nat → AttemptEnv) (fname : String) (s : PipelineStats)
    (maxRetries : Nat) : Bool × PipelineStats × Nat :=
  processFileAux env fname maxRetries maxRetries 1 s

/-- The world a pipeline run observes: whether data/raw exists, the csv file
names glob discovers there (in arbitrary filesystem order), and the
per-file-per-attempt stage outcomes. -/
structure World where
  raw_dir_exists : Bool
  raw_csv_files : List String
  attempts : String → Nat → AttemptEnv

/-- Model of the Python builtin sorted() on path strings: an ascending
stable sort under the lexicographic string order. -/
def pySorted (l : List String) : List String := List.insertionSort (· ≤ ·) l

/-- Loop body of the file loop in run (pipeline.py lines 160-161): run
process_file with default max_retries = 3, keep its stats, record the file
as attempted. -/
def runStep (attempts : String → Nat → AttemptEnv) (acc : PipelineStats × List String)
    (f : String) : PipelineStats × List String :=
  ((process_file (attempts f) f acc.1 3).2.1, acc.2 ++ [f])

/-- pipeline.py run() (lines 131-169): validate the raw directory, discover
and sort csv files, return True early when none, otherwise process every
file and return files_failed == 0.  Returns additionally the final stats and
the ordered trace of files handed to process_file. -/
def run (w : World) : Bool × PipelineStats × List String :=
  if w.raw_dir_exists then
    let csv_files := pySorted w.raw_csv_files
    if csv_files.isEmpty then (true, initStats, [])
    else
      let p := csv_files.foldl (runStep w.attempts) (initStats, [])
      (p.1.files_failed == 0, p.1, p.2)
  else (false, initStats, [])

/- ------------------------------------------------------------------ -/
/- Transformation module: column normalisation, missing values,        -/
/- duplicates, dtype conversion (transform_data.py).                   -/
/- ------------------------------------------------------------------ -/

/-- Python strings as lists of code points. -/
abbrev PyStr := List Nat

/-- ASCII fragment of the Python str whitespace class used by strip(). -/
def pyIsSpace (c : Nat) : Bool :=
  decide (c = 32 ∨ c = 9 ∨ c = 10 ∨ c = 11 ∨ c = 12 ∨ c = 13)

/-- ASCII fragment of Python str.isalnum(). -/
def pyIsAlnum (c : Nat) : Bool :=
  decide ((48 ≤ c ∧ c ≤ 57) ∨ (65 ≤ c ∧ c ≤ 90) ∨ (97 ≤ c ∧ c ≤ 122))

/-- ASCII fragment of Python str.lower(), per character. -/
def pyLowerChar (c : Nat) : Nat := if 65 ≤ c ∧ c ≤ 90 then c + 32 else c

/-- Python str.strip(chars): remove leading and trailing characters
satisfying p. -/
def pyStripBy (p : Nat → Bool) (s : PyStr) : PyStr :=
  ((s.dropWhile p).reverse.dropWhile p).reverse

/-- transform_data.py normalize_columns, per name (lines 45-58):
strip().lower(), then .replace(32, 95).replace(45, 95) on code points
(space and hyphen to underscore), then keep only alphanumerics and
underscore, then strip(95). -/
def normalizeColName (s : PyStr) : PyStr :=
  let s1 := (pyStripBy pyIsSpace s).map pyLowerChar
  let s2 := s1.map fun c => if c = 32 then 95 else c
  let s3 := s2.map fun c => if c = 45 then 95 else c
  let s4 := s3.filter fun c => pyIsAlnum c || c = 95
  pyStripBy (fun c => c = 95) s4

/-- Modelled from the spec words, for refinement comparison with
normalizeColName: lower-case, trim surrounding whitespace, replace internal
whitespace and hyphens with underscores, delete every character that is not
alphanumeric or underscore, trim leading and trailing underscores. -/
def specNormalizeColName (s : PyStr) : PyStr :=
  let s1 := pyStripBy pyIsSpace (s.map pyLowerChar)
  let s2 := s1.map fun c => if pyIsSpace c || c = 45 then 95 else c
  let s3 := s2.filter fun c => pyIsAlnum c || c = 95
  pyStripBy (fun c => c = 95) s3

/-- pandas column dtype tag: object (text) or numeric. -/
inductive Dtype where
  | object
  | numeric
deriving DecidableEq

/-- One DataFrame value: NaN, a string, or a number. -/
inductive Cell where
  | null
  | str (s : PyStr)
  | num (q : Rat)
deriving DecidableEq

structure Column where
  name : PyStr
  dtype : Dtype
  cells : List Cell
deriving DecidableEq

/-- Columnar DataFrame model: named, dtype-tagged, equal-length columns. -/
structure DataFrame where
  cols : List Column
deriving DecidableEq

def DataFrame.nRows (df : DataFrame) : Nat :=
  match df.cols with
  | [] => 0
  | c :: _ => c.cells.length

def DataFrame.rowAt (df : DataFrame) (i : Nat) : List Cell :=
  df.cols.map fun c => c.cells.getD i Cell.null

/-- Keep the rows whose index satisfies keep, in every column. -/
def keepRows (df : DataFrame) (keep : Nat → Bool) : DataFrame :=
  ⟨df.cols.map fun c =>
    { c with cells := (((List.range c.cells.length).zip c.cells).filterMap
        (fun p => if keep p.1 then some p.2 else none)) }⟩

/-- transform_data.py normalize_columns lifted to a DataFrame. -/
def normalize_columns (df : DataFrame) : DataFrame :=
  ⟨df.cols.map fun c => { c with name := normalizeColName c.name }⟩

/-- The three handle_missing_values strategies of transform_data.py. -/
inductive MissingStrategy where
  | drop_all
  | drop_any
  | fill_mean
deriving DecidableEq

/-- Fill NaN cells of one numeric column with the column mean, skipping NaN
in the mean as pandas does; a column with no values keeps its NaN cells. -/
def colMeanFill (c : Column) : Column :=
  if c.dtype = Dtype.numeric then
    let vals := c.cells.filterMap fun x =>
      match x with
      | Cell.num q => some q
      | _ => none
    if vals.length = 0 then c
    else
      let m : Rat := (vals.foldl (· + ·) 0) / (vals.length : Rat)
      { c with cells := c.cells.map fun x =>
          match x with
          | Cell.null => Cell.num m
          | v => v }
  else c

/-- transform_data.py handle_missing_values (lines 76-92): dropna with
how equal to all or any, or fill numeric columns with the mean; returns the
new frame and the number of rows removed. -/
def handle_missing_values (df : DataFrame) (strategy : MissingStrategy) :
    DataFrame × Nat :=
  let initial := df.nRows
  let df2 :=
    match strategy with
    | MissingStrategy.drop_all =>
        keepRows df fun i => !((df.rowAt i).all fun c => decide (c = Cell.null))
    | MissingStrategy.drop_any =>
        keepRows df fun i => !((df.rowAt i).any fun c => decide (c = Cell.null))
    | MissingStrategy.fill_mean => ⟨df.cols.map colMeanFill⟩
  (df2, initial - df2.nRows)

/-- Row index i is the first occurrence of its full row tuple. -/
def firstOcc (df : DataFrame) (i : Nat) : Bool :=
  decide (∀ j, j < i → df.rowAt j ≠ df.rowAt i)

/-- transform_data.py remove_duplicates (lines 60-74) with subset=None:
drop duplicate full rows keeping the first; returns the frame and the count
removed. -/
def remove_duplicates (df : DataFrame) : DataFrame × Nat :=
  let initial := df.nRows
  let df2 := keepRows df (firstOcc df)
  (df2, initial - df2.nRows)

/-- Digit code point test. -/
def isDigitCh (c : Nat) : Bool := decide (48 ≤ c ∧ c ≤ 57)

/-- Parse an unsigned decimal natural from code points. -/
def parseNat (s : PyStr) : Option Nat :=
  if s ≠ [] ∧ s.all isDigitCh = true then
    some (s.foldl (fun acc c => acc * 10 + (c - 48)) 0)
  else none

/-- Integer fragment of the pandas to_numeric scalar parser: optional sign
followed by decimal digits. -/
def parsePyNumber (s : PyStr) : Option Rat :=
  match s with
  | 43 :: rest => (parseNat rest).map fun n => (n : Rat)
  | 45 :: rest => (parseNat rest).map fun n => -(n : Rat)
  | _ => (parseNat s).map fun n => (n : Rat)

/-- pd.to_numeric on one cell: NaN passes through, numbers pass through,
strings must parse. -/
def toNumericCell : Cell → Option Cell
  | Cell.null => some Cell.null
  | Cell.num q => some (Cell.num q)
  | Cell.str s => (parsePyNumber s).map Cell.num

/-- Option-valued traversal: all cells must succeed or the whole column
conversion fails (the ValueError pandas raises, caught by the except). -/
def mapOption {α β : Type} (f : α → Option β) : List α → Option (List β)
  | [] => some []
  | a :: l =>
    match f a with
    | none => none
    | some b =>
      match mapOption f l with
      | none => none
      | some bs => some (b :: bs)

/-- One iteration of the convert_dtypes loop (transform_data.py lines
93-106) on one column: object columns get pd.to_numeric applied to the whole
column inside try/except; on success the column becomes numeric, on failure
it is left untouched.  The Bool reports whether a conversion was counted. -/
def convertCol (c : Column) : Column × Bool :=
  if c.dtype = Dtype.object then
    match mapOption toNumericCell c.cells with
    | some cs => ({ c with dtype := Dtype.numeric, cells := cs }, true)
    | none => (c, false)
  else (c, false)

/-- transform_data.py convert_dtypes: apply convertCol to every column and
count the conversions. -/
def convert_dtypes (df : DataFrame) : DataFrame × Nat :=
  (⟨df.cols.map fun c => (convertCol c).1⟩,
   (df.cols.filter fun c => (convertCol c).2).length)

/-- A Python value passed to transform: a DataFrame or anything else
(carrying its type name for the error message). -/
inductive PyVal where
  | frame (df : DataFrame)
  | other (typeName : String)

/-- The keyword arguments of transform_data.py transform. -/
structure TransformOptions where
  normalize_cols : Bool
  remove_dups : Bool
  handle_missing : Option MissingStrategy
  convert_types : Bool

/-- The defaults of the transform signature: normalize_cols=True,
remove_dups=True, handle_missing=drop_all, convert_types=True. -/
def defaultTransformOptions : TransformOptions :=
  ⟨true, true, some MissingStrategy.drop_all, true⟩

/-- transform_data.py transform (lines 108-169): the isinstance check comes
first and raises TransformError on a non-DataFrame input; then the selected
steps run in the fixed order normalize, handle_missing, remove_duplicates,
convert_dtypes. -/
def transform (v : PyVal) (opts : TransformOptions) : Except PyExn DataFrame :=
  match v with
  | PyVal.other t =>
      Except.error (PyExn.transformError ("Expected DataFrame, got " ++ t))
  | PyVal.frame df0 =>
      let df1 := if opts.normalize_cols then normalize_columns df0 else df0
      let df2 :=
        match opts.handle_missing with
        | some strat => (handle_missing_values df1 strat).1
        | none => df1
      let df3 := if opts.remove_dups then (remove_duplicates df2).1 else df2
      let df4 := if opts.convert_types then (convert_dtypes df3).1 else df3
      Except.ok df4

/- ------------------------------------------------------------------ -/
/- Extraction module: the on_bad_lines handling (extract_data.py).     -/
/- ------------------------------------------------------------------ -/

/-- The three-valued pandas on_bad_lines policy named by config.py. -/
inductive BadLinesPolicy where
  | warn
  | skip
  | error
deriving DecidableEq

/-- config.py line 6: EXTRACT_ON_BAD_LINES = "warn"  # warn, skip, error. -/
def EXTRACT_ON_BAD_LINES : BadLinesPolicy := BadLinesPolicy.warn

/-- The extract settings of config.py that concern bad lines. -/
structure ExtractConfig where
  on_bad_lines : BadLinesPolicy

/-- A raw delimited file after splitting into fields: header and data rows. -/
structure RawCsv where
  header : List PyStr
  rows : List (List PyStr)

/-- pandas row intake: a short row is padded with NaN up to the header
width. -/
def padRow (w : Nat) (r : List PyStr) : List Cell :=
  (List.range w).map fun j =>
    match r[j]? with
    | some s => Cell.str s
    | none => Cell.null

/-- Model of pandas read_csv row handling with the C engine: a row with
more fields than the header is a bad line handled per policy (warn skips it
and emits a warning, skip skips it silently, error raises ParserError); all
other rows are accepted, short ones padded with NaN.  Returns the data rows
and the warning count. -/
def readCsvRows (policy : BadLinesPolicy) (w : Nat) :
    List (List PyStr) → Except String (List (List Cell) × Nat)
  | [] => Except.ok ([], 0)
  | r :: rest =>
    if w < r.length then
      match policy with
      | BadLinesPolicy.warn =>
          (readCsvRows policy w rest).map fun p => (p.1, p.2 + 1)
      | BadLinesPolicy.skip => readCsvRows policy w rest
      | BadLinesPolicy.error => Except.error "ParserError: expected fields exceeded"
    else
      (readCsvRows policy w rest).map fun p => (padRow w r :: p.1, p.2)

/-- extract_data.py DataExtractor.extract_csv, restricted to its bad-line
behaviour: both read_csv call sites (lines 112-121 and 129-137) pass the
literal on_bad_lines=warn; extract_data.py never imports config.py, so the
configuration argument is ignored. -/
def extract_csv (cfg : ExtractConfig) (csv : RawCsv) :
    Except String (List (List Cell) × Nat) :=
  readCsvRows BadLinesPolicy.warn csv.header.length csv.rows

/-- Modelled from the spec words, for refinement comparison with
extract_csv: the extractor handles malformed rows according to the
configured three-valued policy. -/
def spec_extract_csv (cfg : ExtractConfig) (csv : RawCsv) :
    Except String (List (List Cell) × Nat) :=
  readCsvRows cfg.on_bad_lines csv.header.length csv.rows

/- ------------------------------------------------------------------ -/
/- Concrete scenarios used by counterexamples and witnesses.           -/
/- ------------------------------------------------------------------ -/

/-- An attempt oracle whose first two attempts fail with a retryable
extraction error and whose third succeeds. -/
def failThenOkEnv : Nat → AttemptEnv := fun i =>
  if i < 3 then
    { extract := Except.error (PyExn.extractionError "transient"),
      transform := Except.ok 0, save := Except.ok (),
      postgres_host := false, load := Except.ok 0 }
  else
    { extract := Except.ok 3, transform := Except.ok 3, save := Except.ok (),
      postgres_host := false, load := Except.ok 0 }

/-- An attempt oracle failing every attempt with a retryable error. -/
def alwaysFailEnv : Nat → AttemptEnv := fun _ =>
  { extract := Except.error (PyExn.extractionError "transient"),
    transform := Except.ok 0, save := Except.ok (),
    postgres_host := false, load := Except.ok 0 }

/-- An attempt oracle whose first attempt raises an unrecognized exception
type. -/
def fatalEnv : Nat → AttemptEnv := fun _ =>
  { extract := Except.error (PyExn.otherExn "boom"),
    transform := Except.ok 0, save := Except.ok (),
    postgres_host := false, load := Except.ok 0 }

/-- An attempt oracle where the optional database load is configured and
raises LoadError while everything else succeeds. -/
def loadFailEnv : Nat → AttemptEnv := fun _ =>
  { extract := Except.ok 2, transform := Except.ok 2, save := Except.ok (),
    postgres_host := true, load := Except.error (PyExn.loadError "connection refused") }

/-- An attempt oracle whose transform stage persistently raises the
TypeMismatch TransformError of the isinstance check. -/
def typeMismatchEnv : Nat → AttemptEnv := fun _ =>
  { extract := Except.ok 2,
    transform := Except.error (PyExn.transformError "Expected DataFrame, got <class list>"),
    save := Except.ok (), postgres_host := false, load := Except.ok 0 }

/-- An attempt oracle extracting 5 rows every attempt, with the transform
stage failing retryably on attempts 1 and 2 and succeeding on attempt 3. -/
def flakyTransformEnv : Nat → AttemptEnv := fun i =>
  if i < 3 then
    { extract := Except.ok 5,
      transform := Except.error (PyExn.transformError "boom"),
      save := Except.ok (), postgres_host := false, load := Except.ok 0 }
  else
    { extract := Except.ok 5, transform := Except.ok 5, save := Except.ok (),
      postgres_host := false, load := Except.ok 0 }

/-- A world with two discoverable files, out of order, all stages fine. -/
def demoWorld : World :=
  { raw_dir_exists := true,
    raw_csv_files := ["b.csv", "a.csv"],
    attempts := fun _ _ =>
      { extract := Except.ok 1, transform := Except.ok 1, save := Except.ok (),
        postgres_host := false, load := Except.ok 0 } }

/-- A world whose raw directory does not exist. -/
def noDirWorld : World :=
  { raw_dir_exists := false,
    raw_csv_files := ["x.csv"],
    attempts := fun _ _ =>
      { extract := Except.ok 1, transform := Except.ok 1, save := Except.ok (),
        postgres_host := false, load := Except.ok 0 } }

/-- A two-column csv with one overlong data row. -/
def badCsv : RawCsv :=
  { header := [[104, 49], [104, 50]],
    rows := [[[97], [98], [99]]] }

/-- The extract configuration set to the error policy. -/
def cfgError : ExtractConfig := { on_bad_lines := BadLinesPolicy.error }


theorem runAttempt_snd (a : AttemptEnv) (s : PipelineStats) :
    (runAttempt a s).2 = attemptErr a := by
  obtain ⟨ex, tr, sv, ph, ld⟩ := a
  cases ex with
  | error e => rfl
  | ok n =>
    cases tr with
    | error e => rfl
    | ok m =>
      cases sv with
      | error e => rfl
      | ok u =>
        cases ph with
        | false => rfl
        | true =>
          cases ld with
          | ok k => rfl
          | error e => cases e <;> rfl

theorem runAttempt_preserves (a : AttemptEnv) (s : PipelineStats) :
    (runAttempt a s).1.files_processed = s.files_processed ∧
    (runAttempt a s).1.files_failed = s.files_failed ∧
    (runAttempt a s).1.errors = s.errors := by
  obtain ⟨ex, tr, sv, ph, ld⟩ := a
  cases ex with
  | error e => exact ⟨rfl, rfl, rfl⟩
  | ok n =>
    cases tr with
    | error e => exact ⟨rfl, rfl, rfl⟩
    | ok m =>
      cases sv with
      | error e => exact ⟨rfl, rfl, rfl⟩
      | ok u =>
        cases ph with
        | false => exact ⟨rfl, rfl, rfl⟩
        | true =>
          cases ld with
          | ok k => exact ⟨rfl, rfl, rfl⟩
          | error e => cases e <;> exact ⟨rfl, rfl, rfl⟩

theorem processFileAux_found_success (env : Nat → AttemptEnv) (fname : String)
    (maxR fuel a : Nat) (s s1 : PipelineStats)
    (hra : runAttempt (env a) s = (s1, none)) :
    processFileAux env fname maxR (fuel + 1) a s =
      (true, { s1 with files_processed := s1.files_processed + 1 }, a) := by
  simp only [processFileAux, hra]

theorem processFileAux_step (env : Nat → AttemptEnv) (fname : String)
    (maxR fuel a : Nat) (s s1 : PipelineStats) (e : PyExn)
    (hra : runAttempt (env a) s = (s1, some e)) (hr : isRetryable e = true)
    (hlt : a < maxR) :
    processFileAux env fname maxR (fuel + 1) a s =
      processFileAux env fname maxR fuel (a + 1) s1 := by
  simp only [processFileAux, hra, hr, if_true, if_pos hlt]

theorem processFileAux_exhausted (env : Nat → AttemptEnv) (fname : String)
    (maxR fuel a : Nat) (s s1 : PipelineStats) (e : PyExn)
    (hra : runAttempt (env a) s = (s1, some e)) (hr : isRetryable e = true)
    (hge : ¬ a < maxR) :
    processFileAux env fname maxR (fuel + 1) a s =
      (false, { s1 with
                files_failed := s1.files_failed + 1
                errors := s1.errors ++ [fname ++ ": " ++ PyExn.msg e] }, a) := by
  simp only [processFileAux, hra, hr, if_true, if_neg hge]

theorem processFileAux_fatal (env : Nat → AttemptEnv) (fname : String)
    (maxR fuel a : Nat) (s s1 : PipelineStats) (e : PyExn)
    (hra : runAttempt (env a) s = (s1, some e)) (hr : isRetryable e = false) :
    processFileAux env fname maxR (fuel + 1) a s =
      (false, { s1 with
                files_failed := s1.files_failed + 1
                errors := s1.errors ++ [fname ++ ": Unexpected error: " ++ PyExn.msg e] }, a) := by
  simp only [processFileAux, hra, hr]
  simp


theorem processFileAux_advance (env : Nat → AttemptEnv) (fname : String)
    (maxR k : Nat) :
    ∀ (m fuel a : Nat) (s : PipelineStats), k - a = m → fuel + a = maxR + 1 →
    1 ≤ a → a ≤ k → k ≤ maxR →
    (∀ i, a ≤ i → i < k → ∃ e, attemptErr (env i) = some e ∧ isRetryable e = true) →
    ∃ fuel2 s2, processFileAux env fname maxR fuel a s =
        processFileAux env fname maxR fuel2 k s2 ∧
      fuel2 + k = maxR + 1 ∧
      s2.files_processed = s.files_processed ∧
      s2.files_failed = s.files_failed ∧
      s2.errors = s.errors := by
  intro m
  induction m with
  | zero =>
    intro fuel a s hm hfa h1 hak hkm hf
    have hak2 : a = k := by omega
    subst hak2
    exact ⟨fuel, s, rfl, hfa, rfl, rfl, rfl⟩
  | succ n ih =>
    intro fuel a s hm hfa h1 hak hkm hf
    have hlt : a < k := by omega
    obtain ⟨e, he, hr⟩ := hf a le_rfl hlt
    obtain ⟨f2, rfl⟩ : ∃ f2, fuel = f2 + 1 := ⟨fuel - 1, by omega⟩
    have h2 : (runAttempt (env a) s).2 = some e := by
      rw [runAttempt_snd]; exact he
    have hra : runAttempt (env a) s = ((runAttempt (env a) s).1, some e) := by
      rw [← h2]
    rw [processFileAux_step env fname maxR f2 a s _ e hra hr (by omega)]
    have hpre := runAttempt_preserves (env a) s
    obtain ⟨fuel2, s2, heq, hf2, hp, hfl, herr⟩ :=
      ih f2 (a + 1) ((runAttempt (env a) s).1) (by omega) (by omega) (by omega)
        (by omega) hkm (fun i hi hik => hf i (by omega) hik)
    refine ⟨fuel2, s2, heq, hf2, ?_, ?_, ?_⟩
    · rw [hp, hpre.1]
    · rw [hfl, hpre.2.1]
    · rw [herr, hpre.2.2]

theorem process_file_succeeds_at (env : Nat → AttemptEnv) (fname : String)
    (s : PipelineStats) (maxR k : Nat) (h1 : 1 ≤ k) (hk : k ≤ maxR)
    (hf : ∀ i, 1 ≤ i → i < k → ∃ e, attemptErr (env i) = some e ∧ isRetryable e = true)
    (hsucc : attemptErr (env k) = none) :
    ∃ s1, process_file env fname s maxR = (true, s1, k) ∧
      s1.files_processed = s.files_processed + 1 ∧
      s1.files_failed = s.files_failed ∧
      s1.errors = s.errors := by
  obtain ⟨fuel2, s2, heq, hf2, hp, hfl, herr⟩ :=
    processFileAux_advance env fname maxR k (k - 1) maxR 1 s rfl (by omega)
      le_rfl h1 hk hf
  obtain ⟨f3, rfl⟩ : ∃ f3, fuel2 = f3 + 1 := ⟨fuel2 - 1, by omega⟩
  have h2 : (runAttempt (env k) s2).2 = none := by rw [runAttempt_snd]; exact hsucc
  have hra : runAttempt (env k) s2 = ((runAttempt (env k) s2).1, none) := by
    rw [← h2]
  have hpre := runAttempt_preserves (env k) s2
  have hfin : process_file env fname s maxR =
      (true, { (runAttempt (env k) s2).1 with
               files_processed := (runAttempt (env k) s2).1.files_processed + 1 }, k) := by
    unfold process_file
    rw [heq]
    exact processFileAux_found_success env fname maxR f3 k s2 _ hra
  exact ⟨_, hfin, by simp [hpre.1, hp], by simp [hpre.2.1, hfl], by simp [hpre.2.2, herr]⟩

theorem process_file_fails_all (env : Nat → AttemptEnv) (fname : String)
    (s : PipelineStats) (maxR : Nat) (hmr : 1 ≤ maxR)
    (hf : ∀ i, 1 ≤ i → i ≤ maxR → ∃ e, attemptErr (env i) = some e ∧ isRetryable e = true) :
    ∃ s1, process_file env fname s maxR = (false, s1, maxR) ∧
      s1.files_failed = s.files_failed + 1 ∧
      s1.files_processed = s.files_processed := by
  obtain ⟨fuel2, s2, heq, hf2, hp, hfl, herr⟩ :=
    processFileAux_advance env fname maxR maxR (maxR - 1) maxR 1 s rfl (by omega)
      le_rfl hmr le_rfl (fun i hi hik => hf i hi (by omega))
  obtain ⟨f3, rfl⟩ : ∃ f3, fuel2 = f3 + 1 := ⟨fuel2 - 1, by omega⟩
  obtain ⟨e, he, hr⟩ := hf maxR hmr le_rfl
  have h2 : (runAttempt (env maxR) s2).2 = some e := by rw [runAttempt_snd]; exact he
  have hra : runAttempt (env maxR) s2 = ((runAttempt (env maxR) s2).1, some e) := by
    rw [← h2]
  have hpre := runAttempt_preserves (env maxR) s2
  have hfin : process_file env fname s maxR =
      (false, { (runAttempt (env maxR) s2).1 with
                files_failed := (runAttempt (env maxR) s2).1.files_failed + 1
                errors := (runAttempt (env maxR) s2).1.errors ++
                  [fname ++ ": " ++ PyExn.msg e] }, maxR) := by
    unfold process_file
    rw [heq]
    exact processFileAux_exhausted env fname maxR f3 maxR s2 _ e hra hr (by omega)
  exact ⟨_, hfin, by simp [hpre.2.1, hfl], by simp [hpre.1, hp]⟩

theorem process_file_fatal_at (env : Nat → AttemptEnv) (fname : String)
    (s : PipelineStats) (maxR k : Nat) (e : PyExn) (h1 : 1 ≤ k) (hk : k ≤ maxR)
    (hf : ∀ i, 1 ≤ i → i < k → ∃ e2, attemptErr (env i) = some e2 ∧ isRetryable e2 = true)
    (he : attemptErr (env k) = some e) (hr : isRetryable e = false) :
    ∃ s1, process_file env fname s maxR = (false, s1, k) ∧
      s1.files_failed = s.files_failed + 1 ∧
      s1.files_processed = s.files_processed := by
  obtain ⟨fuel2, s2, heq, hf2, hp, hfl, herr⟩ :=
    processFileAux_advance env fname maxR k (k - 1) maxR 1 s rfl (by omega)
      le_rfl h1 hk hf
  obtain ⟨f3, rfl⟩ : ∃ f3, fuel2 = f3 + 1 := ⟨fuel2 - 1, by omega⟩
  have h2 : (runAttempt (env k) s2).2 = some e := by rw [runAttempt_snd]; exact he
  have hra : runAttempt (env k) s2 = ((runAttempt (env k) s2).1, some e) := by
    rw [← h2]
  have hpre := runAttempt_preserves (env k) s2
  have hfin : process_file env fname s maxR =
      (false, { (runAttempt (env k) s2).1 with
                files_failed := (runAttempt (env k) s2).1.files_failed + 1
                errors := (runAttempt (env k) s2).1.errors ++
                  [fname ++ ": Unexpected error: " ++ PyExn.msg e] }, k) := by
    unfold process_file
    rw [heq]
    exact processFileAux_fatal env fname maxR f3 k s2 _ e hra hr
  exact ⟨_, hfin, by simp [hpre.2.1, hfl], by simp [hpre.1, hp]⟩


theorem runAttempt_transform_err (a : AttemptEnv) (s : PipelineStats) (n : Nat) (e : PyExn)
    (hx : a.extract = Except.ok n) (ht : a.transform = Except.error e) :
    runAttempt a s = ({ s with rows_extracted := s.rows_extracted + n }, some e) := by
  simp only [runAttempt, hx, ht]

theorem attemptErr_transform_err (a : AttemptEnv) (n : Nat) (e : PyExn)
    (hx : a.extract = Except.ok n) (ht : a.transform = Except.error e) :
    attemptErr a = some e := by
  simp only [attemptErr, hx, ht]

theorem runAttempt_rows_of_ok (a : AttemptEnv) (s : PipelineStats) (n : Nat)
    (hx : a.extract = Except.ok n) (hok : attemptErr a = none) :
    (runAttempt a s).1.rows_extracted = s.rows_extracted + n := by
  obtain ⟨ex, tr, sv, ph, ld⟩ := a
  simp only at hx
  subst hx
  simp only [runAttempt, attemptErr] at *
  cases tr with
  | error e => simp at hok
  | ok m =>
    cases sv with
    | error e => simp at hok
    | ok u =>
      cases ph with
      | false => rfl
      | true =>
        cases ld with
        | ok kk => rfl
        | error e => cases e <;> rfl

theorem runAttempt_load_caught (a : AttemptEnv) (s : PipelineStats) (nx nt : Nat) (m : String)
    (hx : a.extract = Except.ok nx) (ht : a.transform = Except.ok nt)
    (hs : a.save = Except.ok ()) (hp : a.postgres_host = true)
    (hl : a.load = Except.error (PyExn.loadError m)) :
    runAttempt a s = ({ s with
        rows_extracted := s.rows_extracted + nx
        rows_transformed := s.rows_transformed + nt }, none) := by
  simp only [runAttempt, hx, ht, hs, hp, hl, if_true]

theorem processFileAux_advance_rows (env : Nat → AttemptEnv) (fname : String)
    (maxR k n : Nat) :
    ∀ (m fuel a : Nat) (s : PipelineStats), k - a = m → fuel + a = maxR + 1 →
    1 ≤ a → a ≤ k → k ≤ maxR →
    (∀ i, a ≤ i → i < k → (env i).extract = Except.ok n ∧
      ∃ e, (env i).transform = Except.error e ∧ isRetryable e = true) →
    ∃ fuel2 s2, processFileAux env fname maxR fuel a s =
        processFileAux env fname maxR fuel2 k s2 ∧
      fuel2 + k = maxR + 1 ∧
      s2.rows_extracted = s.rows_extracted + (k - a) * n ∧
      s2.files_processed = s.files_processed ∧
      s2.files_failed = s.files_failed := by
  intro m
  induction m with
  | zero =>
    intro fuel a s hm hfa h1 hak hkm hf
    have hak2 : a = k := by omega
    subst hak2
    exact ⟨fuel, s, rfl, hfa, by simp [hm], rfl, rfl⟩
  | succ nn ih =>
    intro fuel a s hm hfa h1 hak hkm hf
    have hlt : a < k := by omega
    obtain ⟨hx, e, ht, hr⟩ := hf a le_rfl hlt
    obtain ⟨f2, rfl⟩ : ∃ f2, fuel = f2 + 1 := ⟨fuel - 1, by omega⟩
    have hra := runAttempt_transform_err (env a) s n e hx ht
    rw [processFileAux_step env fname maxR f2 a s _ e hra hr (by omega)]
    obtain ⟨fuel2, s2, heq, hf2, hrows, hp, hfl⟩ :=
      ih f2 (a + 1) ({ s with rows_extracted := s.rows_extracted + n }) (by omega)
        (by omega) (by omega) (by omega) hkm (fun i hi hik => hf i (by omega) hik)
    refine ⟨fuel2, s2, heq, hf2, ?_, hp, hfl⟩
    rw [hrows]
    have hka : k - a = (k - (a + 1)) + 1 := by omega
    rw [hka, Nat.succ_mul]
    simp only []
    omega

theorem process_file_flaky_rows (env : Nat → AttemptEnv) (fname : String)
    (s : PipelineStats) (maxR k n : Nat) (h1 : 1 ≤ k) (hk : k ≤ maxR)
    (hf : ∀ i, 1 ≤ i → i < k → (env i).extract = Except.ok n ∧
      ∃ e, (env i).transform = Except.error e ∧ isRetryable e = true)
    (hx : (env k).extract = Except.ok n) (hsucc : attemptErr (env k) = none) :
    ∃ s1, process_file env fname s maxR = (true, s1, k) ∧
      s1.rows_extracted = s.rows_extracted + k * n ∧
      s1.files_processed = s.files_processed + 1 := by
  obtain ⟨fuel2, s2, heq, hf2, hrows, hp, hfl⟩ :=
    processFileAux_advance_rows env fname maxR k n (k - 1) maxR 1 s rfl (by omega)
      le_rfl h1 hk hf
  obtain ⟨f3, rfl⟩ : ∃ f3, fuel2 = f3 + 1 := ⟨fuel2 - 1, by omega⟩
  have h2 : (runAttempt (env k) s2).2 = none := by rw [runAttempt_snd]; exact hsucc
  have hra : runAttempt (env k) s2 = ((runAttempt (env k) s2).1, none) := by
    rw [← h2]
  have hpre := runAttempt_preserves (env k) s2
  have hrows2 := runAttempt_rows_of_ok (env k) s2 n hx hsucc
  have hfin : process_file env fname s maxR =
      (true, { (runAttempt (env k) s2).1 with
               files_processed := (runAttempt (env k) s2).1.files_processed + 1 }, k) := by
    unfold process_file
    rw [heq]
    exact processFileAux_found_success env fname maxR f3 k s2 _ hra
  refine ⟨_, hfin, ?_, ?_⟩
  · show ({ (runAttempt (env k) s2).1 with
            files_processed := (runAttempt (env k) s2).1.files_processed + 1 }).rows_extracted =
      s.rows_extracted + k * n
    simp only []
    rw [hrows2, hrows]
    have : k - 1 + 1 = k := by omega
    calc s.rows_extracted + (k - 1) * n + n
        = s.rows_extracted + ((k - 1) * n + n) := by omega
      _ = s.rows_extracted + ((k - 1) + 1) * n := by rw [Nat.succ_mul]
      _ = s.rows_extracted + k * n := by rw [this]
  · simp [hpre.1, hp]


theorem processFileAux_verdict (env : Nat → AttemptEnv) (fname : String) (maxR : Nat) :
    ∀ (fuel a : Nat) (s : PipelineStats), 1 ≤ a → fuel + a = maxR + 1 → a ≤ maxR →
    (processFileAux env fname maxR fuel a s).2.1.files_processed +
      (processFileAux env fname maxR fuel a s).2.1.files_failed
      = s.files_processed + s.files_failed + 1 := by
  intro fuel
  induction fuel with
  | zero =>
    intro a s h1 hfa ham
    exfalso
    omega
  | succ f2 ih =>
    intro a s h1 hfa ham
    rcases hra : runAttempt (env a) s with ⟨s1, err⟩
    have hpre := runAttempt_preserves (env a) s
    rw [hra] at hpre
    simp only at hpre
    cases err with
    | none =>
      rw [processFileAux_found_success env fname maxR f2 a s s1 hra]
      simp only []
      omega
    | some e =>
      cases hr : isRetryable e with
      | true =>
        by_cases hlt : a < maxR
        · rw [processFileAux_step env fname maxR f2 a s s1 e hra hr hlt]
          have := ih (a + 1) s1 (by omega) (by omega) (by omega)
          omega
        · rw [processFileAux_exhausted env fname maxR f2 a s s1 e hra hr hlt]
          simp only []
          omega
      | false =>
        rw [processFileAux_fatal env fname maxR f2 a s s1 e hra hr]
        simp only []
        omega

theorem process_file_verdict (env : Nat → AttemptEnv) (fname : String)
    (s : PipelineStats) (maxR : Nat) (hmr : 1 ≤ maxR) :
    (process_file env fname s maxR).2.1.files_processed +
      (process_file env fname s maxR).2.1.files_failed
      = s.files_processed + s.files_failed + 1 := by
  unfold process_file
  exact processFileAux_verdict env fname maxR maxR 1 s le_rfl (by omega) hmr

theorem runStep_foldl (attempts : String → Nat → AttemptEnv) :
    ∀ (files : List String) (s : PipelineStats) (tr : List String),
    (files.foldl (runStep attempts) (s, tr)).2 = tr ++ files ∧
    (files.foldl (runStep attempts) (s, tr)).1.files_processed +
      (files.foldl (runStep attempts) (s, tr)).1.files_failed
      = s.files_processed + s.files_failed + files.length := by
  intro files
  induction files with
  | nil => intro s tr; simp
  | cons f fs ih =>
    intro s tr
    have hv := process_file_verdict (attempts f) f s 3 (by omega)
    have step : runStep attempts (s, tr) f =
        ((process_file (attempts f) f s 3).2.1, tr ++ [f]) := rfl
    simp only [List.foldl_cons, step]
    obtain ⟨h1, h2⟩ := ih ((process_file (attempts f) f s 3).2.1) (tr ++ [f])
    constructor
    · rw [h1]
      simp
    · rw [h2]
      simp only [List.length_cons]
      omega


/-- C1: the per-file sequence is retried as a unit on retryable errors:
with retryable failures on attempts 1..k-1 and success on attempt
k, with k at most maxRetries, the file succeeds after exactly k attempts
and is counted processed; with a retryable error persisting on every
attempt the file fails after exactly maxRetries attempts and is counted
failed. -/
theorem C1_retry_loop :
    (∀ (env : Nat → AttemptEnv) (fname : String) (s : PipelineStats) (maxR k : Nat),
      1 ≤ k → k ≤ maxR →
      (∀ i, 1 ≤ i → i < k → ∃ e, attemptErr (env i) = some e ∧ isRetryable e = true) →
      attemptErr (env k) = none →
      ∃ s1, process_file env fname s maxR = (true, s1, k) ∧
        s1.files_processed = s.files_processed + 1 ∧
        s1.files_failed = s.files_failed) ∧
    (∀ (env : Nat → AttemptEnv) (fname : String) (s : PipelineStats) (maxR : Nat),
      1 ≤ maxR →
      (∀ i, 1 ≤ i → i ≤ maxR → ∃ e, attemptErr (env i) = some e ∧ isRetryable e = true) →
      ∃ s1, process_file env fname s maxR = (false, s1, maxR) ∧
        s1.files_failed = s.files_failed + 1 ∧
        s1.files_processed = s.files_processed) := by
  constructor
  · intro env fname s maxR k h1 hk hf hsucc
    obtain ⟨s1, heq, hp, hfl, herr⟩ :=
      process_file_succeeds_at env fname s maxR k h1 hk hf hsucc
    exact ⟨s1, heq, hp, hfl⟩
  · intro env fname s maxR hmr hf
    exact process_file_fails_all env fname s maxR hmr hf

theorem C1_retry_loop_witness :
    (∃ s1, process_file failThenOkEnv "orders.csv" initStats 3 = (true, s1, 3) ∧
      s1.files_processed = initStats.files_processed + 1 ∧
      s1.files_failed = initStats.files_failed) ∧
    (∃ s1, process_file alwaysFailEnv "orders.csv" initStats 3 = (false, s1, 3) ∧
      s1.files_failed = initStats.files_failed + 1 ∧
      s1.files_processed = initStats.files_processed) := by
  constructor
  · exact C1_retry_loop.1 failThenOkEnv "orders.csv" initStats 3 3 (by omega) (by omega)
      (by intro i h1 h2
          interval_cases i <;> exact ⟨PyExn.extractionError "transient", rfl, rfl⟩)
      rfl
  · exact C1_retry_loop.2 alwaysFailEnv "orders.csv" initStats 3 (by omega)
      (by intro i h1 h2
          exact ⟨PyExn.extractionError "transient", rfl, rfl⟩)


/-- C3: when the optional database load is configured (postgres_host set)
and the load stage raises LoadError after extract, transform and the
processed-file save succeeded, the error is caught: the file succeeds on
that attempt, is counted processed, counts no failure, loads no rows and
records no error message. -/
theorem C3_load_error_swallowed (env : Nat → AttemptEnv) (fname : String)
    (s : PipelineStats) (maxR nx nt : Nat) (m : String) (hmr : 1 ≤ maxR)
    (hx : (env 1).extract = Except.ok nx) (ht : (env 1).transform = Except.ok nt)
    (hs : (env 1).save = Except.ok ()) (hp : (env 1).postgres_host = true)
    (hl : (env 1).load = Except.error (PyExn.loadError m)) :
    ∃ s1, process_file env fname s maxR = (true, s1, 1) ∧
      s1.files_processed = s.files_processed + 1 ∧
      s1.files_failed = s.files_failed ∧
      s1.rows_loaded = s.rows_loaded ∧
      s1.errors = s.errors := by
  have hra := runAttempt_load_caught (env 1) s nx nt m hx ht hs hp hl
  obtain ⟨f2, hfu⟩ : ∃ f2, maxR = f2 + 1 := ⟨maxR - 1, by omega⟩
  have hfin : process_file env fname s maxR =
      (true, { s with
               rows_extracted := s.rows_extracted + nx
               rows_transformed := s.rows_transformed + nt
               files_processed := s.files_processed + 1 }, 1) := by
    unfold process_file
    rw [hfu]
    rw [processFileAux_found_success env fname (f2 + 1) f2 1 s _ hra]
  exact ⟨_, hfin, rfl, rfl, rfl, rfl⟩

theorem C3_load_error_swallowed_witness :
    ∃ s1, process_file loadFailEnv "orders.csv" initStats 3 = (true, s1, 1) ∧
      s1.files_processed = initStats.files_processed + 1 ∧
      s1.files_failed = initStats.files_failed ∧
      s1.rows_loaded = initStats.rows_loaded ∧
      s1.errors = initStats.errors :=
  C3_load_error_swallowed loadFailEnv "orders.csv" initStats 3 2 2 "connection refused"
    (by omega) rfl rfl rfl rfl rfl

/-- C4: an exception whose type is not one of the recognized retryable
stage errors is fatal immediately: whenever it escapes the attempt body on
attempt k the loop stops at attempt k (no further retries) and the file is
counted failed. -/
theorem C4_fatal_immediate (env : Nat → AttemptEnv) (fname : String)
    (s : PipelineStats) (maxR k : Nat) (e : PyExn) (h1 : 1 ≤ k) (hk : k ≤ maxR)
    (hprev : ∀ i, 1 ≤ i → i < k → ∃ e2, attemptErr (env i) = some e2 ∧ isRetryable e2 = true)
    (he : attemptErr (env k) = some e) (hr : isRetryable e = false) :
    ∃ s1, process_file env fname s maxR = (false, s1, k) ∧
      s1.files_failed = s.files_failed + 1 ∧
      s1.files_processed = s.files_processed :=
  process_file_fatal_at env fname s maxR k e h1 hk hprev he hr

theorem C4_fatal_immediate_witness :
    ∃ s1, process_file fatalEnv "orders.csv" initStats 3 = (false, s1, 1) ∧
      s1.files_failed = initStats.files_failed + 1 ∧
      s1.files_processed = initStats.files_processed :=
  C4_fatal_immediate fatalEnv "orders.csv" initStats 3 1 (PyExn.otherExn "boom")
    (by omega) (by omega) (by intro i h1 h2; omega) rfl rfl

/-- C10: rows_extracted is incremented again on every attempt whose
extraction succeeds: if extraction yields n rows on each attempt, the
transform stage fails retryably on attempts 1..k-1 and the file succeeds on
attempt k, the aggregate rows_extracted grows by k * n, which exceeds the
n rows actually present in the file whenever k exceeds 1. -/
theorem C10_rows_extracted_overcount (env : Nat → AttemptEnv) (fname : String)
    (s : PipelineStats) (maxR k n : Nat) (h1 : 1 ≤ k) (hk : k ≤ maxR)
    (hf : ∀ i, 1 ≤ i → i < k → (env i).extract = Except.ok n ∧
      ∃ e, (env i).transform = Except.error e ∧ isRetryable e = true)
    (hx : (env k).extract = Except.ok n) (hsucc : attemptErr (env k) = none) :
    ∃ s1, process_file env fname s maxR = (true, s1, k) ∧
      s1.rows_extracted = s.rows_extracted + k * n ∧
      s1.files_processed = s.files_processed + 1 :=
  process_file_flaky_rows env fname s maxR k n h1 hk hf hx hsucc

theorem C10_rows_extracted_overcount_witness :
    (∃ s1, process_file flakyTransformEnv "big.csv" initStats 3 = (true, s1, 3) ∧
      s1.rows_extracted = initStats.rows_extracted + 3 * 5 ∧
      s1.files_processed = initStats.files_processed + 1) ∧
    initStats.rows_extracted + 3 * 5 > 5 := by
  constructor
  · exact C10_rows_extracted_overcount flakyTransformEnv "big.csv" initStats 3 3 5
      (by omega) (by omega)
      (by intro i hi1 hi2
          interval_cases i <;>
            exact ⟨rfl, PyExn.transformError "boom", rfl, rfl⟩)
      rfl rfl
  · decide


theorem run_eq_empty (w : World) (hdir : w.raw_dir_exists = true)
    (he : (pySorted w.raw_csv_files).isEmpty = true) :
    run w = (true, initStats, []) := by
  unfold run
  rw [hdir]
  simp [he]

theorem run_eq_nonempty (w : World) (hdir : w.raw_dir_exists = true)
    (he : (pySorted w.raw_csv_files).isEmpty = false) :
    run w =
      ((List.foldl (runStep w.attempts) (initStats, []) (pySorted w.raw_csv_files)).1.files_failed == 0,
       (List.foldl (runStep w.attempts) (initStats, []) (pySorted w.raw_csv_files)).1,
       (List.foldl (runStep w.attempts) (initStats, []) (pySorted w.raw_csv_files)).2) := by
  unfold run
  rw [hdir]
  simp [he]

/-- C5: when the raw directory exists the run returns success exactly when
the failed-file count is zero; a run discovering zero input files returns
success; and when the raw directory does not exist the run returns failure
immediately, with zero files processed and no file handed to the loop. -/
theorem C5_overall_success (w : World) :
    (w.raw_dir_exists = true →
      (((run w).1 = true) ↔ (run w).2.1.files_failed = 0)) ∧
    (w.raw_dir_exists = true → w.raw_csv_files = [] → (run w).1 = true) ∧
    (w.raw_dir_exists = false →
      (run w).1 = false ∧ (run w).2.1.files_processed = 0 ∧ (run w).2.2 = []) := by
  refine ⟨?_, ?_, ?_⟩
  · intro hdir
    by_cases he : (pySorted w.raw_csv_files).isEmpty = true
    · rw [run_eq_empty w hdir he]
      simp [initStats]
    · have hne : (pySorted w.raw_csv_files).isEmpty = false := by
        rwa [Bool.not_eq_true] at he
      rw [run_eq_nonempty w hdir hne]
      exact beq_iff_eq
  · intro hdir hnil
    have he : (pySorted w.raw_csv_files).isEmpty = true := by
      rw [hnil]
      rfl
    rw [run_eq_empty w hdir he]
  · intro hdir
    unfold run
    rw [hdir]
    exact ⟨rfl, rfl, rfl⟩

theorem C5_overall_success_witness :
    (((run demoWorld).1 = true) ↔ (run demoWorld).2.1.files_failed = 0) ∧
    ((run noDirWorld).1 = false ∧ (run noDirWorld).2.1.files_processed = 0 ∧
      (run noDirWorld).2.2 = []) :=
  ⟨(C5_overall_success demoWorld).1 rfl, (C5_overall_success noDirWorld).2.2 rfl⟩

/-- C6: the run hands the discovered files to process_file in ascending
lexicographic order, exactly the discovered multiset (a permutation), and
never aborts early: whatever the per-file outcomes, every discovered file
ends up counted as exactly one of processed or failed. -/
theorem C6_all_files_attempted (w : World) (h : w.raw_dir_exists = true) :
    (run w).2.2.Pairwise (fun a b => a ≤ b) ∧
    (run w).2.2.Perm w.raw_csv_files ∧
    (run w).2.1.files_processed + (run w).2.1.files_failed = w.raw_csv_files.length := by
  have hperm : (pySorted w.raw_csv_files).Perm w.raw_csv_files :=
    List.perm_insertionSort (· ≤ ·) w.raw_csv_files
  have hsorted : (pySorted w.raw_csv_files).Pairwise (fun a b => a ≤ b) :=
    List.sorted_insertionSort (· ≤ ·) w.raw_csv_files
  by_cases he : (pySorted w.raw_csv_files).isEmpty = true
  · have hnil : pySorted w.raw_csv_files = [] := List.isEmpty_iff.mp he
    have hwnil : w.raw_csv_files = [] := by
      rw [hnil] at hperm
      exact hperm.symm.eq_nil
    rw [run_eq_empty w h he]
    simp [hwnil, initStats]
  · have hne : (pySorted w.raw_csv_files).isEmpty = false := by
      rwa [Bool.not_eq_true] at he
    obtain ⟨htr, hcnt⟩ :=
      runStep_foldl w.attempts (pySorted w.raw_csv_files) initStats []
    simp only [List.nil_append] at htr
    have h22 : (run w).2.2 = pySorted w.raw_csv_files := by
      rw [run_eq_nonempty w h hne]
      exact htr
    have h21 : (run w).2.1 =
        (List.foldl (runStep w.attempts) (initStats, []) (pySorted w.raw_csv_files)).1 := by
      rw [run_eq_nonempty w h hne]
    refine ⟨?_, ?_, ?_⟩
    · rw [h22]; exact hsorted
    · rw [h22]; exact hperm
    · rw [h21, hcnt]
      have hl := hperm.length_eq
      have hi1 : initStats.files_processed = 0 := rfl
      have hi2 : initStats.files_failed = 0 := rfl
      omega

theorem C6_all_files_attempted_witness :
    (run demoWorld).2.2.Pairwise (fun a b => a ≤ b) ∧
    (run demoWorld).2.2.Perm demoWorld.raw_csv_files ∧
    (run demoWorld).2.1.files_processed + (run demoWorld).2.1.files_failed =
      demoWorld.raw_csv_files.length :=
  C6_all_files_attempted demoWorld rfl


/-- C2: the claim as frozen says the TypeMismatch error is fatal and the
file runner never retries the sequence because of it; it is false. The
isinstance check raises TransformError, which the handler tuple of
process_file classifies as retryable, so an oracle whose transform stage
persistently raises it drives the loop through all 3 attempts, not 1. -/
theorem C2_counterexample :
    transform (PyVal.other "<class list>") defaultTransformOptions =
      Except.error (PyExn.transformError "Expected DataFrame, got <class list>") ∧
    isRetryable (PyExn.transformError "Expected DataFrame, got <class list>") = true ∧
    (process_file typeMismatchEnv "orders.csv" initStats 3).2.2 = 3 ∧
    (process_file typeMismatchEnv "orders.csv" initStats 3).2.2 ≠ 1 := by
  refine ⟨rfl, rfl, ?_, ?_⟩
  · decide
  · decide

/-- C2 amended: a TypeMismatch TransformError raised on a non-DataFrame
input occurs before any transformation step runs (the result is the same
error for every option setting), but the file runner treats it as a
retryable error: when it recurs on every attempt the runner performs all
maxRetries attempts and then marks the file failed. -/
theorem C2_type_mismatch_retried :
    (∀ (t : String) (opts : TransformOptions),
      transform (PyVal.other t) opts =
        Except.error (PyExn.transformError ("Expected DataFrame, got " ++ t))) ∧
    (∀ m, isRetryable (PyExn.transformError m) = true) ∧
    (∀ (env : Nat → AttemptEnv) (fname : String) (s : PipelineStats) (maxR : Nat),
      1 ≤ maxR →
      (∀ i, 1 ≤ i → i ≤ maxR → ∃ m, attemptErr (env i) = some (PyExn.transformError m)) →
      ∃ s1, process_file env fname s maxR = (false, s1, maxR) ∧
        s1.files_failed = s.files_failed + 1) := by
  refine ⟨fun t opts => rfl, fun m => rfl, ?_⟩
  intro env fname s maxR hmr hf
  obtain ⟨s1, heq, hfl, hp⟩ := process_file_fails_all env fname s maxR hmr
    (fun i hi hik => by
      obtain ⟨m, hm⟩ := hf i hi hik
      exact ⟨PyExn.transformError m, hm, rfl⟩)
  exact ⟨s1, heq, hfl⟩

theorem C2_type_mismatch_retried_witness :
    ∃ s1, process_file typeMismatchEnv "orders.csv" initStats 3 = (false, s1, 3) ∧
      s1.files_failed = initStats.files_failed + 1 :=
  C2_type_mismatch_retried.2.2 typeMismatchEnv "orders.csv" initStats 3 (by omega)
    (fun i hi hik => ⟨"Expected DataFrame, got <class list>", rfl⟩)

theorem mapOption_isSome {α β : Type} (f : α → Option β) :
    ∀ l : List α, (mapOption f l).isSome = true ↔ ∀ a ∈ l, (f a).isSome = true := by
  intro l
  induction l with
  | nil => simp [mapOption]
  | cons a l ih =>
    simp only [mapOption, List.mem_cons]
    cases hfa : f a with
    | none =>
      simp only [Option.isSome_none, Bool.false_eq_true, false_iff]
      intro hall
      have hcontra := hall a (Or.inl rfl)
      rw [hfa] at hcontra
      simp at hcontra
    | some b =>
      cases hml : mapOption f l with
      | none =>
        rw [hml] at ih
        simp only [Option.isSome_none, Bool.false_eq_true, false_iff] at ih ⊢
        intro hall
        exact ih (fun x hx => hall x (Or.inr hx))
      | some bs =>
        rw [hml] at ih
        simp only [Option.isSome_some, true_iff] at ih ⊢
        intro x hx
        rcases hx with rfl | hx
        · rw [hfa]; rfl
        · exact ih x hx

/-- C9: type coercion is all-or-nothing per column: an object column is
converted to numeric exactly when every non-null value parses, is left
untouched otherwise, and on conversion the cells are precisely the output
of the whole-column pd.to_numeric. -/
theorem C9_all_or_nothing (c : Column) (h : c.dtype = Dtype.object) :
    ((convertCol c).2 = true ↔
      ∀ v ∈ c.cells, v ≠ Cell.null → (toNumericCell v).isSome = true) ∧
    ((convertCol c).2 = false → (convertCol c).1 = c) ∧
    ((convertCol c).2 = true → (convertCol c).1.dtype = Dtype.numeric ∧
      mapOption toNumericCell c.cells = some (convertCol c).1.cells) := by
  have hbridge : (∀ v ∈ c.cells, (toNumericCell v).isSome = true) ↔
      (∀ v ∈ c.cells, v ≠ Cell.null → (toNumericCell v).isSome = true) := by
    constructor
    · intro hall v hv _
      exact hall v hv
    · intro hall v hv
      by_cases hn : v = Cell.null
      · subst hn; rfl
      · exact hall v hv hn
  unfold convertCol
  rw [if_pos h]
  cases hm : mapOption toNumericCell c.cells with
  | none =>
    have hnotall : ¬ ∀ v ∈ c.cells, (toNumericCell v).isSome = true := by
      intro hall
      have hsome := (mapOption_isSome toNumericCell c.cells).mpr hall
      rw [hm] at hsome
      simp at hsome
    refine ⟨?_, fun _ => rfl, ?_⟩
    · constructor
      · intro hfalse
        simp at hfalse
      · intro hr
        exact absurd (hbridge.mpr hr) hnotall
    · intro hfalse
      simp at hfalse
  | some cs =>
    have hall : ∀ v ∈ c.cells, (toNumericCell v).isSome = true :=
      (mapOption_isSome toNumericCell c.cells).mp (by rw [hm]; rfl)
    refine ⟨?_, ?_, ?_⟩
    · exact ⟨fun _ => hbridge.mp hall, fun _ => rfl⟩
    · intro hfalse
      simp at hfalse
    · intro _
      exact ⟨rfl, rfl⟩

theorem C9_all_or_nothing_witness :
    ((convertCol ⟨[105, 100], Dtype.object,
        [Cell.str [52, 50], Cell.null, Cell.str [55]]⟩).2 = true ↔
      ∀ v ∈ [Cell.str [52, 50], Cell.null, Cell.str [55]],
        v ≠ Cell.null → (toNumericCell v).isSome = true) ∧
    ((convertCol ⟨[105, 100], Dtype.object,
        [Cell.str [52, 50], Cell.null, Cell.str [55]]⟩).2 = false →
      (convertCol ⟨[105, 100], Dtype.object,
        [Cell.str [52, 50], Cell.null, Cell.str [55]]⟩).1 =
        ⟨[105, 100], Dtype.object, [Cell.str [52, 50], Cell.null, Cell.str [55]]⟩) ∧
    ((convertCol ⟨[105, 100], Dtype.object,
        [Cell.str [52, 50], Cell.null, Cell.str [55]]⟩).2 = true →
      (convertCol ⟨[105, 100], Dtype.object,
        [Cell.str [52, 50], Cell.null, Cell.str [55]]⟩).1.dtype = Dtype.numeric ∧
      mapOption toNumericCell [Cell.str [52, 50], Cell.null, Cell.str [55]] =
        some (convertCol ⟨[105, 100], Dtype.object,
          [Cell.str [52, 50], Cell.null, Cell.str [55]]⟩).1.cells) :=
  C9_all_or_nothing ⟨[105, 100], Dtype.object,
    [Cell.str [52, 50], Cell.null, Cell.str [55]]⟩ rfl

theorem readCsvRows_warn (w : Nat) (rows : List (List PyStr)) :
    readCsvRows BadLinesPolicy.warn w rows =
      Except.ok ((rows.filter fun r => !decide (w < r.length)).map (padRow w),
        (rows.filter fun r => decide (w < r.length)).length) := by
  induction rows with
  | nil => rfl
  | cons r rest ih =>
    by_cases hc : w < r.length
    · simp [readCsvRows, hc, ih, Except.map, List.filter_cons]
    · simp [readCsvRows, hc, ih, Except.map, List.filter_cons]

/-- C7: the claim as frozen says malformed rows are handled per the
configured three-valued policy; it is false: the extractor hardcodes warn
and ignores the configuration, so with the policy set to error an overlong
row is skipped with a warning instead of failing the extraction. -/
theorem C7_counterexample :
    extract_csv cfgError badCsv = Except.ok ([], 1) ∧
    spec_extract_csv cfgError badCsv =
      Except.error "ParserError: expected fields exceeded" ∧
    extract_csv cfgError badCsv ≠ spec_extract_csv cfgError badCsv := by
  refine ⟨rfl, rfl, ?_⟩
  intro heq
  exact Except.noConfusion heq

/-- C7 amended: the extractor always applies the warn policy whatever the
configuration holds: rows with more fields than the header are skipped,
one warning each, rows with fewer fields are accepted padded with NaN,
and extraction never hard-fails on a malformed row. -/
theorem C7_bad_lines_policy_hardcoded :
    (∀ (cfg1 cfg2 : ExtractConfig) (csv : RawCsv),
      extract_csv cfg1 csv = extract_csv cfg2 csv) ∧
    (∀ (cfg : ExtractConfig) (csv : RawCsv),
      extract_csv cfg csv = readCsvRows BadLinesPolicy.warn csv.header.length csv.rows) ∧
    (∀ (w : Nat) (rows : List (List PyStr)),
      readCsvRows BadLinesPolicy.warn w rows =
        Except.ok ((rows.filter fun r => !decide (w < r.length)).map (padRow w),
          (rows.filter fun r => decide (w < r.length)).length)) :=
  ⟨fun _ _ _ => rfl, fun _ _ => rfl, readCsvRows_warn⟩

theorem head?_dropWhile_false {α : Type} (p : α → Bool) (l : List α) (a : α)
    (h : (l.dropWhile p).head? = some a) : p a = false := by
  induction l with
  | nil => simp [List.dropWhile] at h
  | cons x xs ih =>
    rw [List.dropWhile_cons] at h
    by_cases hx : p x = true
    · rw [if_pos hx] at h
      exact ih h
    · rw [if_neg hx] at h
      simp only [List.head?_cons, Option.some.injEq] at h
      subst h
      exact Bool.eq_false_iff.mpr hx

theorem getLast?_dropWhile {α : Type} (p : α → Bool) (l : List α)
    (h : l.dropWhile p ≠ []) : (l.dropWhile p).getLast? = l.getLast? := by
  induction l with
  | nil => simp [List.dropWhile] at h
  | cons x xs ih =>
    rw [List.dropWhile_cons] at h ⊢
    by_cases hx : p x = true
    · rw [if_pos hx] at h ⊢
      have hxs : xs ≠ [] := by
        intro hnil
        rw [hnil] at h
        simp [List.dropWhile] at h
      rw [ih h]
      cases xs with
      | nil => exact absurd rfl hxs
      | cons y ys => rw [List.getLast?_cons_cons]
    · rw [if_neg hx]

theorem pyStripBy_head (p : Nat → Bool) (l : PyStr) (a : Nat)
    (h : (pyStripBy p l).head? = some a) : p a = false := by
  unfold pyStripBy at h
  rw [List.head?_reverse] at h
  have hne : (l.dropWhile p).reverse.dropWhile p ≠ [] := by
    intro hnil
    rw [hnil] at h
    simp at h
  rw [getLast?_dropWhile p _ hne, List.getLast?_reverse] at h
  exact head?_dropWhile_false p l a h

theorem pyStripBy_getLast (p : Nat → Bool) (l : PyStr) (a : Nat)
    (h : (pyStripBy p l).getLast? = some a) : p a = false := by
  unfold pyStripBy at h
  rw [List.getLast?_reverse] at h
  exact head?_dropWhile_false p _ a h

theorem mem_pyStripBy {p : Nat → Bool} {l : PyStr} {c : Nat}
    (h : c ∈ pyStripBy p l) : c ∈ l := by
  unfold pyStripBy at h
  rw [List.mem_reverse] at h
  have h2 := (List.dropWhile_sublist p).subset h
  rw [List.mem_reverse] at h2
  exact (List.dropWhile_sublist p).subset h2

theorem pyLowerChar_not_upper (c : Nat) :
    ¬ (65 ≤ pyLowerChar c ∧ pyLowerChar c ≤ 90) := by
  unfold pyLowerChar
  split <;> omega

theorem pyIsSpace_pyLowerChar (c : Nat) :
    pyIsSpace (pyLowerChar c) = pyIsSpace c := by
  unfold pyLowerChar
  split
  · simp only [pyIsSpace, decide_eq_decide]
    omega
  · rfl

theorem normalizeColName_class (s : PyStr) :
    ∀ c ∈ normalizeColName s,
      (48 ≤ c ∧ c ≤ 57) ∨ (97 ≤ c ∧ c ≤ 122) ∨ c = 95 := by
  intro c hc
  simp only [normalizeColName] at hc
  have h4 := mem_pyStripBy hc
  rw [List.mem_filter] at h4
  obtain ⟨h3, hkeep⟩ := h4
  by_cases h95 : c = 95
  · right; right; exact h95
  · have halnum : (48 ≤ c ∧ c ≤ 57) ∨ (65 ≤ c ∧ c ≤ 90) ∨ (97 ≤ c ∧ c ≤ 122) := by
      simp only [Bool.or_eq_true, pyIsAlnum, decide_eq_true_eq] at hkeep
      rcases hkeep with hk | hk
      · exact hk
      · exact absurd hk h95
    rw [List.mem_map] at h3
    obtain ⟨d2, hd2, hcd⟩ := h3
    rw [List.mem_map] at hd2
    obtain ⟨d1, hd1, hdd⟩ := hd2
    rw [List.mem_map] at hd1
    obtain ⟨d0, hd0, hld⟩ := hd1
    have hnot := pyLowerChar_not_upper d0
    have hceq : c = pyLowerChar d0 := by
      by_cases h32 : d1 = 32
      · exfalso
        apply h95
        rw [← hcd, ← hdd, h32]
        simp
      · by_cases h45 : d2 = 45
        · exfalso
          apply h95
          rw [← hcd, h45]
          simp
        · rw [← hcd, if_neg h45, ← hdd, if_neg h32, ← hld]
    rw [← hceq] at hnot
    omega

theorem normalizeColName_no_underscore_ends (s : PyStr) :
    (normalizeColName s).head? ≠ some 95 ∧
    (normalizeColName s).getLast? ≠ some 95 := by
  constructor
  · intro h
    simp only [normalizeColName] at h
    have h2 := pyStripBy_head _ _ 95 h
    simp at h2
  · intro h
    simp only [normalizeColName] at h
    have h2 := pyStripBy_getLast _ _ 95 h
    simp at h2

theorem pyStripBy_map_pyLowerChar (l : PyStr) :
    pyStripBy pyIsSpace (l.map pyLowerChar) =
      (pyStripBy pyIsSpace l).map pyLowerChar := by
  unfold pyStripBy
  have hcomp : (pyIsSpace ∘ pyLowerChar) = pyIsSpace := by
    funext c
    exact pyIsSpace_pyLowerChar c
  rw [List.dropWhile_map, hcomp, ← List.map_reverse, List.dropWhile_map, hcomp,
    ← List.map_reverse]

theorem normalizeColName_eq_spec (s : PyStr)
    (hs : ∀ c ∈ s, pyIsSpace c = true → c = 32) :
    normalizeColName s = specNormalizeColName s := by
  simp only [normalizeColName, specNormalizeColName]
  rw [pyStripBy_map_pyLowerChar]
  congr 1
  congr 1
  rw [List.map_map, List.map_map, List.map_map]
  apply List.map_congr_left
  intro a ha
  have has := mem_pyStripBy ha
  simp only [Function.comp_apply]
  by_cases h32 : pyLowerChar a = 32
  · simp [h32, pyIsSpace]
  · by_cases h45 : pyLowerChar a = 45
    · simp [h32, h45, pyIsSpace]
    · have hsp : pyIsSpace (pyLowerChar a) = false := by
        by_cases hsp2 : pyIsSpace (pyLowerChar a) = true
        · exfalso
          rw [pyIsSpace_pyLowerChar] at hsp2
          have ha32 := hs a has hsp2
          apply h32
          rw [ha32]
          rfl
        · exact Bool.eq_false_iff.mpr hsp2
      simp [h32, h45, hsp]

/-- C8: the claim as frozen describes the normalization as replacing all
internal whitespace with underscores; it is false at a name holding an
internal tab (code point 9): the code replaces only the space character, so
the tab is deleted by the alphanumeric filter while the spec procedure
turns it into an underscore. -/
theorem C8_counterexample :
    normalizeColName [97, 9, 98] = [97, 98] ∧
    specNormalizeColName [97, 9, 98] = [97, 95, 98] ∧
    normalizeColName [97, 9, 98] ≠ specNormalizeColName [97, 9, 98] := by
  refine ⟨?_, ?_, ?_⟩ <;> decide

/-- C8 amended: every normalized column name contains only lowercase
ASCII letters, digits and underscores with no leading or trailing
underscore; and the name is produced by the spec procedure of lower-casing,
trimming, replacing and filtering, provided the only internal whitespace
characters are spaces — other whitespace characters are deleted rather
than replaced by an underscore. -/
theorem C8_normalized_names :
    (∀ (s : PyStr) (c : Nat), c ∈ normalizeColName s →
      (48 ≤ c ∧ c ≤ 57) ∨ (97 ≤ c ∧ c ≤ 122) ∨ c = 95) ∧
    (∀ s : PyStr, (normalizeColName s).head? ≠ some 95 ∧
      (normalizeColName s).getLast? ≠ some 95) ∧
    (∀ s : PyStr, (∀ c ∈ s, pyIsSpace c = true → c = 32) →
      normalizeColName s = specNormalizeColName s) :=
  ⟨fun s c hc => normalizeColName_class s c hc,
   fun s => normalizeColName_no_underscore_ends s,
   fun s hs => normalizeColName_eq_spec s hs⟩

theorem C8_normalized_names_witness :
    ((48 ≤ 99 ∧ 99 ≤ 57) ∨ (97 ≤ 99 ∧ 99 ≤ 122) ∨ 99 = 95) ∧
    ((normalizeColName [67, 117, 115, 116, 111, 109, 101, 114, 32, 78, 97, 109, 101]).head? ≠
      some 95) ∧
    normalizeColName [67, 117, 115, 116, 111, 109, 101, 114, 32, 78, 97, 109, 101] =
      specNormalizeColName [67, 117, 115, 116, 111, 109, 101, 114, 32, 78, 97, 109, 101] := by
  refine ⟨?_, ?_, ?_⟩
  · exact C8_normalized_names.1 [99] 99 (by decide)
  · exact (C8_normalized_names.2.1
      [67, 117, 115, 116, 111, 109, 101, 114, 32, 78, 97, 109, 101]).1
  · exact C8_normalized_names.2.2
      [67, 117, 115, 116, 111, 109, 101, 114, 32, 78, 97, 109, 101] (by decide)

end ETL
